import Mathlib

/-!
Verification of the code-analysis core of the `codebase-genius` repository
(`agents/code-analyzer/main.py`, class `CodeAnalyzerAgent`).

The source traverses tree-sitter concrete syntax trees.  A tree node is
embedded as `TSNode`: its node type, its raw text span, its start/end rows
(0-based, as in tree-sitter `start_point[0]` / `end_point[0]`), a field
table mapping tree-sitter field names to child indices (modelling
`child_by_field_name`), and the list of all children (named and anonymous,
as returned by tree-sitter `node.children` / `node.child(i)`).

Float scores of the source are embedded as rationals (`Rat`); every score
the source computes is a finite sum of the literals 1.0 and 0.5 divided by
a count, which rationals represent exactly.
-/

inductive TSNode : Type where
  | mk : (ty : String) → (text : String) → (startRow : Nat) → (endRow : Nat) →
         (fieldTable : List (String × Nat)) → (children : List TSNode) → TSNode

def TSNode.ty : TSNode → String
  | .mk t _ _ _ _ _ => t

def TSNode.text : TSNode → String
  | .mk _ tx _ _ _ _ => tx

def TSNode.startRow : TSNode → Nat
  | .mk _ _ sr _ _ _ => sr

def TSNode.endRow : TSNode → Nat
  | .mk _ _ _ er _ _ => er

def TSNode.fieldTable : TSNode → List (String × Nat)
  | .mk _ _ _ _ fl _ => fl

def TSNode.children : TSNode → List TSNode
  | .mk _ _ _ _ _ k => k

/-- `node.child(i)` of tree-sitter: the i-th child (named or anonymous). -/
def TSNode.child (n : TSNode) (i : Nat) : Option TSNode :=
  n.children.get? i

/-- `node.child_by_field_name(f)` of tree-sitter, via the field table. -/
def TSNode.field (n : TSNode) (f : String) : Option TSNode :=
  match n.fieldTable.find? (fun p => p.1 = f) with
  | some p => n.children.get? p.2
  | none => none

/-- The Python control-flow node types counted by `calculate_python_complexity`
(`main.py:848`). -/
def pyCtrl (ty : String) : Prop :=
  ty = "if_statement" ∨ ty = "for_statement" ∨ ty = "while_statement" ∨ ty = "try_statement"

instance (ty : String) : Decidable (pyCtrl ty) := by unfold pyCtrl; infer_instance

/-- The boolean-operator node types counted by `calculate_python_complexity`
(`main.py:854`). -/
def pyBoolOp (ty : String) : Prop := ty = "and_expression" ∨ ty = "or_expression"

instance (ty : String) : Decidable (pyBoolOp ty) := by unfold pyBoolOp; infer_instance

/-- The amount the if/elif chain of `count_complexity_constructs`
(`main.py:844-854`) adds to `complexity` for one node of type `ty`. -/
def pyWeight (ty : String) : Rat :=
  if pyCtrl ty then 1
  else if ty = "elif_clause" then 1/2
  else if ty = "except_clause" then 1
  else if pyBoolOp ty then 1
  else 0

mutual
/-- Total amount `count_complexity_constructs` (`main.py:844-858`) adds to the
nonlocal `complexity` when called on `n`: the node's own weight plus the
recursive contribution of all children. -/
def count_complexity_constructs : TSNode → Rat
  | .mk ty _ _ _ _ kids => pyWeight ty + count_complexity_list kids

def count_complexity_list : List TSNode → Rat
  | [] => 0
  | k :: ks => count_complexity_constructs k + count_complexity_list ks
termination_by structural l => l
end

/-- `calculate_python_complexity` (`main.py:837-861`): returns 1.0 when the
node is `None`, else 1.0 plus the recursive count over the whole subtree. -/
def calculate_python_complexity : Option TSNode → Rat
  | none => 1
  | some n => 1 + count_complexity_constructs n

/-- The JavaScript control-flow node types counted by `calculate_js_complexity`
(`main.py:873`). -/
def jsCtrl (ty : String) : Prop :=
  ty = "if_statement" ∨ ty = "for_statement" ∨ ty = "while_statement" ∨ ty = "switch_statement"

instance (ty : String) : Decidable (jsCtrl ty) := by unfold jsCtrl; infer_instance

/-- The expression node types counted by `calculate_js_complexity`
(`main.py:877`). -/
def jsBinOp (ty : String) : Prop := ty = "binary_expression" ∨ ty = "logical_expression"

instance (ty : String) : Decidable (jsBinOp ty) := by unfold jsBinOp; infer_instance

/-- Per-node weight of `count_js_complexity` (`main.py:870-877`). -/
def jsWeight (ty : String) : Rat :=
  if jsCtrl ty then 1
  else if ty = "case_clause" then 1/2
  else if jsBinOp ty then 1
  else 0

mutual
/-- Total amount `count_js_complexity` (`main.py:870-881`) adds to the
nonlocal `complexity` when called on `n`. -/
def count_js_complexity : TSNode → Rat
  | .mk ty _ _ _ _ kids => jsWeight ty + count_js_list kids

def count_js_list : List TSNode → Rat
  | [] => 0
  | k :: ks => count_js_complexity k + count_js_list ks
termination_by structural l => l
end

/-- `calculate_js_complexity` (`main.py:863-884`). -/
def calculate_js_complexity : Option TSNode → Rat
  | none => 1
  | some n => 1 + count_js_complexity n

mutual
/-- Number of nodes in the subtree of `n` whose type satisfies `p`
(full recursive descent, the node itself included). -/
def countNodes (p : String → Bool) : TSNode → Nat
  | .mk ty _ _ _ _ kids => (if p ty then 1 else 0) + countNodesList p kids

def countNodesList (p : String → Bool) : List TSNode → Nat
  | [] => 0
  | k :: ks => countNodes p k + countNodesList p ks
termination_by structural l => l
end

/-- One extracted code element: the dict built by the `extract_*` helpers of
`main.py` (keys `id`, `type`, `name`, `start_line`, `end_line`, `signature`,
`documentation`, `complexity`, `dependencies`, `parameters`, `return_type`,
`decorators`, `visibility`, `is_async`, `is_deprecated`, `source_code`). -/
structure Element where
  id : String
  ty : String
  name : String
  start_line : Nat
  end_line : Nat
  signature : String
  documentation : String
  complexity : Rat
  dependencies : List String
  parameters : List String
  return_type : String
  decorators : List String
  visibility : String
  is_async : Bool
  is_deprecated : Bool
  source_code : String
deriving DecidableEq, Repr

/-- `extract_call_name` (`main.py:774-784`).  When the call node has no
child the source would raise `AttributeError` (caught by the caller's
`try`); that is unreachable for real `call` nodes, and the embedding
returns `""` there. -/
def extract_call_name (n : TSNode) : String :=
  match n.child 0 with
  | none => ""
  | some f =>
    if f.ty = "attribute" then
      match f.child 0, f.child 1 with
      | some a, some b => a.text ++ "." ++ b.text
      | _, _ => ""
    else if f.ty = "identifier" then f.text
    else ""

mutual
/-- Inner `find_calls` of `extract_python_dependencies` (`main.py:762-769`):
collects, in traversal order and before deduplication, the nonempty call
names of all `call` nodes in the subtree. -/
def find_calls : TSNode → List String
  | .mk ty tx sr er fl kids =>
    (if ty = "call" then
      let fn := extract_call_name (.mk ty tx sr er fl kids)
      if fn ≠ "" then [fn] else []
    else []) ++ find_calls_list kids

def find_calls_list : List TSNode → List String
  | [] => []
  | k :: ks => find_calls k ++ find_calls_list ks
termination_by structural l => l
end

/-- `extract_python_dependencies` (`main.py:758-772`).  The source
deduplicates with `list(set(deps))`, whose order is unspecified; the
embedding deduplicates preserving one occurrence per name. -/
def extract_python_dependencies (n : TSNode) : List String :=
  (find_calls n).dedup

/-- `extract_python_docstring` (`main.py:746-756`).  When the first body
statement is an `expression_statement` with no children, `child(0)` is
`None` in the source and `.type` would raise; the embedding returns `""`
for that unreachable shape. -/
def extract_python_docstring (n : TSNode) : String :=
  match n.field "body" with
  | none => ""
  | some body =>
    match body.children.head? with
    | none => ""
    | some first_stmt =>
      if first_stmt.ty = "expression_statement" then
        match first_stmt.child 0 with
        | some expr => if expr.ty = "string" then expr.text else ""
        | none => ""
      else ""

/-- Parameter names: identifier-typed children of the `parameters` field
(`main.py:311-316` and `main.py:418-423`). -/
def paramNames (n : TSNode) : List String :=
  match n.field "parameters" with
  | none => []
  | some ps => (ps.children.filter (fun c => c.ty = "identifier")).map TSNode.text

/-- `extract_python_function` (`main.py:304-343`). -/
def extract_python_function (n : TSNode) (file_path : String) (element_id : Nat) : Element :=
  let function_name := match n.field "name" with
    | some nm => nm.text
    | none => "anonymous"
  let parameters := paramNames n
  { id := "func_" ++ toString element_id ++ "_" ++ file_path
    ty := "function"
    name := function_name
    start_line := n.startRow + 1
    end_line := n.endRow + 1
    signature := "def " ++ function_name ++ "(" ++ String.intercalate ", " parameters ++ ")"
    documentation := extract_python_docstring n
    complexity := calculate_python_complexity (n.field "body")
    dependencies := extract_python_dependencies n
    parameters := parameters
    return_type := "Any"
    decorators := []
    visibility := "public"
    is_async := false
    is_deprecated := false
    source_code := n.text }

/-- `extract_python_class` (`main.py:345-380`).  Note the source looks up
the field name `"bases"` for base classes. -/
def extract_python_class (n : TSNode) (file_path : String) (element_id : Nat) : Element :=
  let class_name := match n.field "name" with
    | some nm => nm.text
    | none => "anonymous"
  let inheritance := match n.field "bases" with
    | none => []
    | some bs => (bs.children.filter (fun c => c.ty = "identifier")).map TSNode.text
  { id := "class_" ++ toString element_id ++ "_" ++ file_path
    ty := "class"
    name := class_name
    start_line := n.startRow + 1
    end_line := n.endRow + 1
    signature := "class " ++ class_name ++ "(" ++ String.intercalate ", " inheritance ++ ")"
    documentation := extract_python_docstring n
    complexity := calculate_python_complexity (n.field "body")
    dependencies := inheritance
    parameters := []
    return_type := "class"
    decorators := []
    visibility := "public"
    is_async := false
    is_deprecated := false
    source_code := n.text }

/-- `extract_python_variable` (`main.py:382-409`). -/
def extract_python_variable (n : TSNode) (file_path : String) (element_id : Nat) : Element :=
  let var_name := match n.field "targets" with
    | some ts =>
      (match ts.children.head? with
       | some t => if t.ty = "identifier" then t.text else "unknown"
       | none => "unknown")
    | none => "unknown"
  { id := "var_" ++ toString element_id ++ "_" ++ file_path
    ty := "variable"
    name := var_name
    start_line := n.startRow + 1
    end_line := n.endRow + 1
    signature := var_name ++ " = ..."
    documentation := ""
    complexity := 1
    dependencies := []
    parameters := []
    return_type := "Any"
    decorators := []
    visibility := "public"
    is_async := false
    is_deprecated := false
    source_code := n.text }

/-- `extract_js_docstring` (`main.py:801-804`): always `""`. -/
def extract_js_docstring (_n : TSNode) : String := ""

/-- `extract_js_call_name` (`main.py:822-827`). -/
def extract_js_call_name (n : TSNode) : String :=
  match n.field "function" with
  | some callee => callee.text
  | none => ""

mutual
/-- Inner `find_js_calls` of `extract_js_dependencies` (`main.py:810-817`). -/
def find_js_calls : TSNode → List String
  | .mk ty tx sr er fl kids =>
    (if ty = "call_expression" then
      let fn := extract_js_call_name (.mk ty tx sr er fl kids)
      if fn ≠ "" then [fn] else []
    else []) ++ find_js_calls_list kids

def find_js_calls_list : List TSNode → List String
  | [] => []
  | k :: ks => find_js_calls k ++ find_js_calls_list ks
termination_by structural l => l
end

/-- `extract_js_dependencies` (`main.py:806-820`), dedup as for Python. -/
def extract_js_dependencies (n : TSNode) : List String :=
  (find_js_calls n).dedup

/-- `extract_js_function` (`main.py:411-446`). -/
def extract_js_function (n : TSNode) (file_path : String) (element_id : Nat) : Element :=
  let function_name := match n.field "name" with
    | some nm => nm.text
    | none => "anonymous"
  let parameters := paramNames n
  { id := "func_" ++ toString element_id ++ "_" ++ file_path
    ty := "function"
    name := function_name
    start_line := n.startRow + 1
    end_line := n.endRow + 1
    signature := "function " ++ function_name ++ "(" ++ String.intercalate ", " parameters ++ ")"
    documentation := extract_js_docstring n
    complexity := calculate_js_complexity (n.field "body")
    dependencies := extract_js_dependencies n
    parameters := parameters
    return_type := "any"
    decorators := []
    visibility := "public"
    is_async := false
    is_deprecated := false
    source_code := n.text }

/-- `extract_js_class` (`main.py:448-471`). -/
def extract_js_class (n : TSNode) (file_path : String) (element_id : Nat) : Element :=
  let class_name := match n.field "name" with
    | some nm => nm.text
    | none => "anonymous"
  { id := "class_" ++ toString element_id ++ "_" ++ file_path
    ty := "class"
    name := class_name
    start_line := n.startRow + 1
    end_line := n.endRow + 1
    signature := "class " ++ class_name
    documentation := extract_js_docstring n
    complexity := 1
    dependencies := []
    parameters := []
    return_type := "class"
    decorators := []
    visibility := "public"
    is_async := false
    is_deprecated := false
    source_code := n.text }

/-- `extract_js_variable` (`main.py:473-501`). -/
def extract_js_variable (n : TSNode) (file_path : String) (element_id : Nat) : Element :=
  let var_name := match n.field "declarations" with
    | some ds =>
      (match ds.children.head? with
       | some declarator =>
         (match declarator.field "name" with
          | some nm => nm.text
          | none => "unknown")
       | none => "unknown")
    | none => "unknown"
  { id := "var_" ++ toString element_id ++ "_" ++ file_path
    ty := "variable"
    name := var_name
    start_line := n.startRow + 1
    end_line := n.endRow + 1
    signature := "let " ++ var_name ++ " = ..."
    documentation := ""
    complexity := 1
    dependencies := []
    parameters := []
    return_type := "any"
    decorators := []
    visibility := "public"
    is_async := false
    is_deprecated := false
    source_code := n.text }

mutual
/-- Inner `traverse_tree` of `extract_code_elements` (`main.py:271-299`):
appends the element for the node itself (pre-order, bumping the nonlocal
`element_counter`), then traverses all children.  Returns the elements
emitted from this subtree together with the updated counter. -/
def traverse_tree (language file_path : String) : TSNode → Nat → List Element × Nat
  | .mk ty tx sr er fl kids, c =>
    let n : TSNode := .mk ty tx sr er fl kids
    let here : List Element × Nat :=
      if language = "python" then
        if ty = "function_definition" then ([extract_python_function n file_path c], c + 1)
        else if ty = "class_definition" then ([extract_python_class n file_path c], c + 1)
        else if ty = "assignment" then ([extract_python_variable n file_path c], c + 1)
        else ([], c)
      else if language = "javascript" then
        if ty = "function_declaration" then ([extract_js_function n file_path c], c + 1)
        else if ty = "class_declaration" then ([extract_js_class n file_path c], c + 1)
        else if ty = "variable_declaration" then ([extract_js_variable n file_path c], c + 1)
        else ([], c)
      else ([], c)
    let rest := traverse_tree_list language file_path kids here.2
    (here.1 ++ rest.1, rest.2)

def traverse_tree_list (language file_path : String) : List TSNode → Nat → List Element × Nat
  | [], c => ([], c)
  | k :: ks, c =>
    let r1 := traverse_tree language file_path k c
    let r2 := traverse_tree_list language file_path ks r1.2
    (r1.1 ++ r2.1, r2.2)
termination_by structural l => l
end

/-- `extract_code_elements` (`main.py:266-302`): full traversal starting
with `element_counter = 0`. -/
def extract_code_elements (tree_node : TSNode) (language file_path : String) : List Element :=
  (traverse_tree language file_path tree_node 0).1

/-- One extracted relationship: the dict built inside
`traverse_for_relationships` (`main.py:503-582`) and
`extract_relationships_with_regex` (`main.py:682-720`), keys `type`,
`source`, `target`, `line`, `context`, `confidence`, `is_direct`.
`source` is `none` where the source stores Python `None`. -/
structure Relationship where
  ty : String
  source : Option String
  target : String
  line : Nat
  context : String
  confidence : Rat
  is_direct : Bool
deriving DecidableEq, Repr

/-- `extract_import_module` (`main.py:786-792`).  `node.child(0)` of a real
`import_from_statement` is never absent; on the absent case the source
would raise and the embedding returns `""`. -/
def extract_import_module (n : TSNode) : String :=
  match n.child 0 with
  | none => ""
  | some c =>
    if c.ty = "dotted_name" then c.text
    else if c.ty = "identifier" then c.text
    else ""

/-- `extract_attribute_name` (`main.py:794-798`). -/
def extract_attribute_name (n : TSNode) : String :=
  match n.child 1 with
  | none => ""
  | some c => if c.ty = "identifier" then c.text else ""

/-- `extract_js_import_module` (`main.py:829-834`):
`source.text.decode().strip('"').strip("'")`. -/
def stripChar (ch : Char) (s : String) : String :=
  ((s.toList.dropWhile (fun c => c = ch)).reverse.dropWhile (fun c => c = ch)).reverse.asString

def extract_js_import_module (n : TSNode) : String :=
  match n.field "source" with
  | some src => stripChar '\'' (stripChar '"' src.text)
  | none => ""

mutual
/-- Inner `traverse_for_relationships` of `extract_relationships`
(`main.py:507-579`).  `current_element` starts as `None` at the root and is
passed to every recursive call unchanged — no code path ever rebinds it. -/
def traverse_for_relationships (language file_path : String) (current_element : Option String) :
    TSNode → List Relationship
  | .mk ty tx sr er fl kids =>
    let n : TSNode := .mk ty tx sr er fl kids
    let here : List Relationship :=
      if language = "python" then
        if ty = "call" then
          let func_name := extract_call_name n
          if func_name ≠ "" then
            [{ ty := "calls", source := current_element, target := func_name,
               line := sr + 1, context := tx, confidence := 0.8, is_direct := true }]
          else []
        else if ty = "import_from_statement" then
          let module_name := extract_import_module n
          if module_name ≠ "" then
            [{ ty := "imports", source := some file_path, target := module_name,
               line := sr + 1, context := tx, confidence := 0.9, is_direct := true }]
          else []
        else if ty = "attribute" then
          let attr_name := extract_attribute_name n
          if attr_name ≠ "" ∧ current_element.isSome then
            [{ ty := "uses", source := current_element, target := attr_name,
               line := sr + 1, context := tx, confidence := 0.7, is_direct := true }]
          else []
        else []
      else if language = "javascript" then
        if ty = "call_expression" then
          let func_name := extract_js_call_name n
          if func_name ≠ "" then
            [{ ty := "calls", source := current_element, target := func_name,
               line := sr + 1, context := tx, confidence := 0.8, is_direct := true }]
          else []
        else if ty = "import_statement" then
          let module_name := extract_js_import_module n
          if module_name ≠ "" then
            [{ ty := "imports", source := some file_path, target := module_name,
               line := sr + 1, context := tx, confidence := 0.9, is_direct := true }]
          else []
        else []
      else []
    here ++ traverse_for_relationships_list language file_path current_element kids

def traverse_for_relationships_list (language file_path : String) (current_element : Option String) :
    List TSNode → List Relationship
  | [] => []
  | k :: ks =>
    traverse_for_relationships language file_path current_element k ++
      traverse_for_relationships_list language file_path current_element ks
termination_by structural l => l
end

/-- `extract_relationships` (`main.py:503-582`): the traversal starts with
`current_element=None`. -/
def extract_relationships (tree_node : TSNode) (language file_path : String) : List Relationship :=
  traverse_for_relationships language file_path none tree_node

mutual
/-- Inner `analyze_node` of `calculate_complexity_score` (`main.py:895-906`):
returns the pair (`total_complexity`, `element_count`) accumulated over the
subtree.  `method_definition` nodes bump the count but add nothing to the
total. -/
def analyze_node : TSNode → Rat × Nat
  | .mk ty tx sr er fl kids =>
    let n : TSNode := .mk ty tx sr er fl kids
    let here : Rat × Nat :=
      if ty = "function_definition" ∨ ty = "class_definition" ∨ ty = "method_definition" then
        (if ty = "function_definition" then
           (calculate_python_complexity (n.field "body"), 1)
         else if ty = "class_definition" then
           (calculate_python_complexity (n.field "body"), 1)
         else (0, 1))
      else (0, 0)
    let rest := analyze_node_list kids
    (here.1 + rest.1, here.2 + rest.2)

def analyze_node_list : List TSNode → Rat × Nat
  | [] => (0, 0)
  | k :: ks =>
    let r1 := analyze_node k
    let r2 := analyze_node_list ks
    (r1.1 + r2.1, r1.2 + r2.2)
termination_by structural l => l
end

/-- `calculate_complexity_score` (`main.py:886-909`): 0.0 for a `None`
root, otherwise `total_complexity / max(element_count, 1)`. -/
def calculate_complexity_score : Option TSNode → Rat
  | none => 0
  | some tree_root =>
    let r := analyze_node tree_root
    r.1 / ((max r.2 1 : Nat) : Rat)

/-! Regex fallback.  The source's patterns (`main.py:592,614,637,659,690,706`)
are embedded as deterministic matchers over `List Char`.  Each matcher
decides whether the pattern matches at the head of its input and returns
the captured name together with the total matched length; `reFinditer`
embeds `re.finditer`'s left-to-right non-overlapping scan.  Greedy
sub-patterns whose character class is disjoint from what follows are
deterministic; the two places the source's patterns need real backtracking
(the optional `from`-group of the Python import pattern and the
`\s+`/class split of the JavaScript import pattern) are replayed by
explicit alternative/shrink loops in the regex engine's preference
order. -/

/-- Python regex `\s` (ASCII range, as in the source's patterns). -/
def isPySpace (c : Char) : Bool :=
  c = ' ' ∨ c = '\t' ∨ c = '\n' ∨ c = '\r' ∨ c = '\x0b' ∨ c = '\x0c'

/-- Python regex `\w` (ASCII range). -/
def isWordChar (c : Char) : Bool := c.isAlphanum || c = '_'

/-- Consume an exact literal, returning the rest of the input. -/
def dropLit : List Char → List Char → Option (List Char)
  | [], rest => some rest
  | _ :: _, [] => none
  | l :: ls, c :: rest => if c = l then dropLit ls rest else none

/-- `source_code[:i].count('\n') + 1`: 1-based line of char position `i`
(`main.py:598` etc.). -/
def line_of (cs : List Char) (i : Nat) : Nat :=
  ((cs.take i).countP (fun c => decide (c = '\n'))) + 1

/-- The text of a match spanning `[i, i+len)`. -/
def substrAt (cs : List Char) (i len : Nat) : String :=
  ((cs.drop i).take len).asString

/-- Python `str.rstrip(ch)`: drop all trailing occurrences of `ch`. -/
def rstripChar (ch : Char) (s : String) : String :=
  ((s.toList.reverse.dropWhile (fun c => c = ch)).reverse).asString

/-- Python `str.strip()`: drop leading and trailing whitespace. -/
def pyStrip (s : String) : String :=
  (((s.toList.dropWhile isPySpace).reverse.dropWhile isPySpace).reverse).asString

/-- `re.finditer` scan: at each position try the matcher; on a match of
length `len ≥ 1` emit `(start, capture, len)` and resume right after the
match, else advance one character.  The `fuel` argument is a structural
termination device only: every step consumes at least one character, so
fuel equal to the input length (as supplied by `reFinditer`) never runs
out before the input does. -/
def reFinditerF (m : List Char → Option (String × Nat)) : Nat → List Char → Nat → List (Nat × String × Nat)
  | 0, _, _ => []
  | _ + 1, [], _ => []
  | fuel + 1, c :: rest, i =>
    match m (c :: rest) with
    | some (a, len) => (i, a, len) :: reFinditerF m fuel (rest.drop (len - 1)) (i + len)
    | none => reFinditerF m fuel rest (i + 1)

def reFinditer (m : List Char → Option (String × Nat)) (cs : List Char) (i : Nat) :
    List (Nat × String × Nat) :=
  reFinditerF m cs.length cs i

/-- Matcher for the Python function pattern `def\s+(\w+)\s*\([^)]*\):`
(`main.py:592`). -/
def matchPyDef (cs : List Char) : Option (String × Nat) :=
  match dropLit "def".toList cs with
  | none => none
  | some r1 =>
    if r1.takeWhile isPySpace = [] then none else
    let r2 := r1.dropWhile isPySpace
    let nm := r2.takeWhile isWordChar
    if nm = [] then none else
    let r3 := r2.dropWhile isWordChar
    let r4 := r3.dropWhile isPySpace
    match dropLit ['('] r4 with
    | none => none
    | some r5 =>
      let r6 := r5.dropWhile (fun c => c ≠ ')')
      match dropLit [')', ':'] r6 with
      | none => none
      | some r7 => some (nm.asString, cs.length - r7.length)

/-- Matcher for the Python class pattern `class\s+(\w+)\s*(\([^)]*\))?:`
(`main.py:614`); the optional base-list group is tried first, as the regex
engine does. -/
def matchPyClass (cs : List Char) : Option (String × Nat) :=
  match dropLit "class".toList cs with
  | none => none
  | some r1 =>
    if r1.takeWhile isPySpace = [] then none else
    let r2 := r1.dropWhile isPySpace
    let nm := r2.takeWhile isWordChar
    if nm = [] then none else
    let r3 := r2.dropWhile isWordChar
    let r4 := r3.dropWhile isPySpace
    let viaGroup : Option (List Char) :=
      match dropLit ['('] r4 with
      | none => none
      | some r5 =>
        let r6 := r5.dropWhile (fun c => c ≠ ')')
        dropLit [')', ':'] r6
    match viaGroup with
    | some r7 => some (nm.asString, cs.length - r7.length)
    | none =>
      match dropLit [':'] r4 with
      | some r7 => some (nm.asString, cs.length - r7.length)
      | none => none

/-- Matcher for the JavaScript function pattern
`function\s+(\w+)\s*\([^)]*\)\s*\x7b` (`main.py:637`). -/
def matchJsFunc (cs : List Char) : Option (String × Nat) :=
  match dropLit "function".toList cs with
  | none => none
  | some r1 =>
    if r1.takeWhile isPySpace = [] then none else
    let r2 := r1.dropWhile isPySpace
    let nm := r2.takeWhile isWordChar
    if nm = [] then none else
    let r3 := r2.dropWhile isWordChar
    let r4 := r3.dropWhile isPySpace
    match dropLit ['('] r4 with
    | none => none
    | some r5 =>
      let r6 := r5.dropWhile (fun c => c ≠ ')')
      match dropLit [')'] r6 with
      | none => none
      | some r7 =>
        let r8 := r7.dropWhile isPySpace
        match dropLit ['\x7b'] r8 with
        | none => none
        | some r9 => some (nm.asString, cs.length - r9.length)

/-- Matcher for the JavaScript class pattern `class\s+(\w+)\s*\x7b`
(`main.py:659`). -/
def matchJsClass (cs : List Char) : Option (String × Nat) :=
  match dropLit "class".toList cs with
  | none => none
  | some r1 =>
    if r1.takeWhile isPySpace = [] then none else
    let r2 := r1.dropWhile isPySpace
    let nm := r2.takeWhile isWordChar
    if nm = [] then none else
    let r3 := r2.dropWhile isWordChar
    let r4 := r3.dropWhile isPySpace
    match dropLit ['\x7b'] r4 with
    | none => none
    | some r5 => some (nm.asString, cs.length - r5.length)

/-- Matcher for the Python import pattern
`(?:from\s+(\S+)\s+)?import\s+([^\n#]+)` (`main.py:690`): the optional
`from`-group is preferred; the selected capture is `group(1) or group(2)`. -/
def matchPyImport (cs : List Char) : Option (String × Nat) :=
  let viaFrom : Option (String × Nat) :=
    match dropLit "from".toList cs with
    | none => none
    | some r1 =>
      if r1.takeWhile isPySpace = [] then none else
      let r2 := r1.dropWhile isPySpace
      let g1 := r2.takeWhile (fun c => ¬ isPySpace c)
      if g1 = [] then none else
      let r3 := r2.dropWhile (fun c => ¬ isPySpace c)
      if r3.takeWhile isPySpace = [] then none else
      let r4 := r3.dropWhile isPySpace
      match dropLit "import".toList r4 with
      | none => none
      | some r5 =>
        if r5.takeWhile isPySpace = [] then none else
        let r6 := r5.dropWhile isPySpace
        let g2 := r6.takeWhile (fun c => c ≠ '\n' ∧ c ≠ '#')
        if g2 = [] then none else
        let r7 := r6.dropWhile (fun c => c ≠ '\n' ∧ c ≠ '#')
        some (g1.asString, cs.length - r7.length)
  match viaFrom with
  | some res => some res
  | none =>
    match dropLit "import".toList cs with
    | none => none
    | some r1 =>
      if r1.takeWhile isPySpace = [] then none else
      let r2 := r1.dropWhile isPySpace
      let g2 := r2.takeWhile (fun c => c ≠ '\n' ∧ c ≠ '#')
      if g2 = [] then none else
      let r3 := r2.dropWhile (fun c => c ≠ '\n' ∧ c ≠ '#')
      some (g2.asString, cs.length - r3.length)

/-- Characters of the class `[\w*\s,]` in the JavaScript import pattern. -/
def jsImportClassChar (c : Char) : Bool := isWordChar c || c = '*' || isPySpace c || c = ','

/-- Tail `\s+from\s+['\x22]([^'\x22]+)['\x22]` of the JavaScript import
pattern: returns the captured module name and the rest of the input. -/
def jsImportTail (cs : List Char) : Option (String × List Char) :=
  if cs.takeWhile isPySpace = [] then none else
  let r1 := cs.dropWhile isPySpace
  match dropLit "from".toList r1 with
  | none => none
  | some r2 =>
    if r2.takeWhile isPySpace = [] then none else
    let r3 := r2.dropWhile isPySpace
    match r3 with
    | [] => none
    | q :: r4 =>
      if q = '\'' ∨ q = '"' then
        let nm := r4.takeWhile (fun c => c ≠ '\'' ∧ c ≠ '"')
        if nm = [] then none else
        match r4.dropWhile (fun c => c ≠ '\'' ∧ c ≠ '"') with
        | [] => none
        | q2 :: r5 => if q2 = '\'' ∨ q2 = '"' then some (nm.asString, r5) else none
      else none

/-- Greedy shrink loop for the class alternative `[\w*\s,]+` of the
JavaScript import pattern: try the longest class prefix first, as the
regex engine's backtracking does. -/
def jsImportTryKs (block after : List Char) : Nat → Option (String × List Char)
  | 0 => none
  | k + 1 =>
    match jsImportTail (block.drop (k + 1) ++ after) with
    | some r => some r
    | none => jsImportTryKs block after k

/-- One choice of `\s+` length after `import`, then the alternation
`(?:\x7b[^\x7d]+\x7d|[\w*\s,]+)` followed by the tail. -/
def jsImportBody (r2 : List Char) : Option (String × List Char) :=
  let viaBrace : Option (String × List Char) :=
    match r2 with
    | '\x7b' :: r3 =>
      let inner := r3.takeWhile (fun c => c ≠ '\x7d')
      if inner = [] then none
      else
        match r3.dropWhile (fun c => c ≠ '\x7d') with
        | '\x7d' :: r4 => jsImportTail r4
        | _ => none
    | _ => none
  match viaBrace with
  | some r => some r
  | none =>
    let block := r2.takeWhile jsImportClassChar
    if block = [] then none
    else jsImportTryKs block (r2.drop block.length) block.length

/-- Greedy shrink loop for the `\s+` right after `import` (its characters
overlap the following class, so the regex engine may backtrack here). -/
def jsImportTryS (r1 : List Char) : Nat → Option (String × List Char)
  | 0 => none
  | s + 1 =>
    match jsImportBody (r1.drop (s + 1)) with
    | some r => some r
    | none => jsImportTryS r1 s

/-- Matcher for the JavaScript import pattern
`import\s+(?:\x7b[^\x7d]+\x7d|[\w*\s,]+)\s+from\s+['\x22]([^'\x22]+)['\x22]`
(`main.py:706`). -/
def matchJsImport (cs : List Char) : Option (String × Nat) :=
  match dropLit "import".toList cs with
  | none => none
  | some r1 =>
    let w := r1.takeWhile isPySpace
    if w = [] then none else
    match jsImportTryS r1 w.length with
    | some (nm, rest) => some (nm, cs.length - rest.length)
    | none => none

/-- Build one regex-derived element (`main.py:594-611` and the analogous
blocks): `end_line` is the documented placeholder 0, complexity 1.0,
signature is the match text with the trailing delimiter stripped. -/
def regexElem (file_path : String) (idx : Nat) (idPre tyStr rtStr : String) (stripC : Char)
    (cs : List Char) (m : Nat × String × Nat) : Element :=
  { id := idPre ++ toString idx ++ "_" ++ file_path
    ty := tyStr
    name := m.2.1
    start_line := line_of cs m.1
    end_line := 0
    signature := rstripChar stripC (substrAt cs m.1 m.2.2)
    documentation := ""
    complexity := 1
    dependencies := []
    parameters := []
    return_type := rtStr
    decorators := []
    visibility := "public"
    is_async := false
    is_deprecated := false
    source_code := substrAt cs m.1 m.2.2 }

/-- Number the matches with the running `len(elements)` id counter. -/
def buildElems (f : Nat → Nat × String × Nat → Element) : Nat → List (Nat × String × Nat) → List Element
  | _, [] => []
  | i, m :: ms => f i m :: buildElems f (i + 1) ms

/-- `extract_elements_with_regex` (`main.py:584-680`): functions first,
then classes, ids numbered by `len(elements)` at append time; languages
other than python/javascript yield no elements. -/
def extract_elements_with_regex (source_code language file_path : String) : List Element :=
  let cs := source_code.toList
  if language = "python" then
    let funcs := buildElems (fun i m => regexElem file_path i "func_" "function" "Any" ':' cs m)
      0 (reFinditer matchPyDef cs 0)
    let classes := buildElems (fun i m => regexElem file_path i "class_" "class" "class" ':' cs m)
      funcs.length (reFinditer matchPyClass cs 0)
    funcs ++ classes
  else if language = "javascript" then
    let funcs := buildElems (fun i m => regexElem file_path i "func_" "function" "any" '\x7b' cs m)
      0 (reFinditer matchJsFunc cs 0)
    let classes := buildElems (fun i m => regexElem file_path i "class_" "class" "class" '\x7b' cs m)
      funcs.length (reFinditer matchJsClass cs 0)
    funcs ++ classes
  else []

/-- `extract_relationships_with_regex` (`main.py:682-720`). -/
def extract_relationships_with_regex (source_code language file_path : String) : List Relationship :=
  let cs := source_code.toList
  if language = "python" then
    (reFinditer matchPyImport cs 0).map (fun m =>
      { ty := "imports", source := some file_path, target := pyStrip m.2.1,
        line := line_of cs m.1, context := substrAt cs m.1 m.2.2,
        confidence := 0.9, is_direct := true })
  else if language = "javascript" then
    (reFinditer matchJsImport cs 0).map (fun m =>
      { ty := "imports", source := some file_path, target := m.2.1,
        line := line_of cs m.1, context := substrAt cs m.1 m.2.2,
        confidence := 0.9, is_direct := true })
  else []

/-- Word-boundary match of the keyword at the head of `cs`, with `prev` the
character immediately before `cs` (`none` at the start of the text): the
regex `\bkw\b`. -/
def boundMatch (kw : List Char) (prev : Option Char) (cs : List Char) : Bool :=
  (match prev with
   | none => true
   | some p => !isWordChar p) &&
  decide (cs.take kw.length = kw) &&
  (match cs.drop kw.length with
   | [] => true
   | d :: _ => !isWordChar d)

/-- `len(re.findall(r'\bkw\b', text))`: the scan of `re.findall`,
non-overlapping and left to right; after a match it resumes right past the
keyword (whose last character becomes the new left context). -/
def findall_countF (kw : List Char) : Nat → Option Char → List Char → Nat
  | 0, _, _ => 0
  | _ + 1, _, [] => 0
  | fuel + 1, prev, c :: rest =>
    if boundMatch kw prev (c :: rest) then
      1 + findall_countF kw fuel (some (kw.getLast?.getD c)) (rest.drop (kw.length - 1))
    else
      findall_countF kw fuel (some c) rest

def findall_count (kw : List Char) (prev : Option Char) (cs : List Char) : Nat :=
  findall_countF kw cs.length prev cs

def keywordCount (kw s : String) : Nat := findall_count kw.toList none s.toList

/-- `calculate_complexity_with_regex` (`main.py:722-743`): 1.0 plus the
`\b`-delimited occurrence counts of the six keywords, anywhere in the raw
text. -/
def calculate_complexity_with_regex (source_code : String) : Rat :=
  let if_count := keywordCount "if" source_code
  let for_count := keywordCount "for" source_code
  let while_count := keywordCount "while" source_code
  let try_count := keywordCount "try" source_code
  let and_count := keywordCount "and" source_code
  let or_count := keywordCount "or" source_code
  1 + ((if_count + for_count + while_count + try_count : Nat) : Rat)
    + ((and_count + or_count : Nat) : Rat)

/-- Specification-side notion for the regex-mode complexity: the number of
positions of the text at which the keyword occurs as a whole word (both
neighbours, where present, non-word characters).  Defined by a plain
scan of every position, independently of `re.findall`'s resumption
behaviour. -/
def wholeWordAux (kw : List Char) (prev : Option Char) : List Char → Nat
  | [] => 0
  | c :: rest => (if boundMatch kw prev (c :: rest) then 1 else 0) + wholeWordAux kw (some c) rest

def wholeWordCount (kw s : String) : Nat := wholeWordAux kw.toList none s.toList

/-- Python `len(source_code.splitlines())` (`main.py:201,238`), for the
common line ends `\n`, `\r`, `\r\n` (the rarer unicode line ends of
`str.splitlines` do not occur in the inputs considered here).  Returns
`(number of line marks, whether text follows the last mark)` and their
combination. -/
def newlineMarks : List Char → Nat × Bool
  | [] => (0, false)
  | '\r' :: '\n' :: rest => let r := newlineMarks rest; (r.1 + 1, r.2)
  | '\n' :: rest => let r := newlineMarks rest; (r.1 + 1, r.2)
  | '\r' :: rest => let r := newlineMarks rest; (r.1 + 1, r.2)
  | _ :: rest => let r := newlineMarks rest; (r.1, if r.1 = 0 then true else r.2)

def splitlines_count (s : String) : Nat :=
  let r := newlineMarks s.toList
  r.1 + (if r.2 then 1 else 0)

/-- The per-file summary `FileAnalysis` (`main.py:50-61`); the wall-clock
timestamp and the serialized parse tree are not modelled. -/
structure FileAnalysis where
  file_path : String
  language : String
  parsing_status : String
  error_message : String
  elements_found : Nat
  relationships_found : Nat
  complexity_score : Rat
  lines_of_code : Nat
deriving DecidableEq, Repr

/-- The dict returned by `parse_file` / `_parse_with_tree_sitter` /
`_parse_with_fallback`: either the success payload (`main.py:213-221` and
`main.py:249-257`) or the error record (`main.py:223-228`, `259-264`). -/
inductive ParseResult where
  | ok (file_path language : String) (file_analysis : FileAnalysis)
       (elements : List Element) (relationships : List Relationship) (complexity_score : Rat)
  | err (file_path error : String)
deriving DecidableEq, Repr

def ParseResult.statusOf : ParseResult → String
  | .ok _ _ _ _ _ _ => "success"
  | .err _ _ => "error"

def ParseResult.elementsOf : ParseResult → List Element
  | .ok _ _ _ es _ _ => es
  | .err _ _ => []

def ParseResult.analysisOf : ParseResult → Option FileAnalysis
  | .ok _ _ fa _ _ _ => some fa
  | .err _ _ => none

/-- `_parse_with_tree_sitter` (`main.py:187-228`).  The external
tree-sitter call `parser.parse(...)` is an input: `Except.ok root` when it
returns a tree, `Except.error e` when it raises (any exception in the
`try` body lands in the `except` branch, which returns the error record
prefixed `Tree-sitter parsing failed: `). -/
def parseWithTreeSitter (file_path language source_code : String)
    (parsed : Except String TSNode) : ParseResult :=
  match parsed with
  | .error e => .err file_path ("Tree-sitter parsing failed: " ++ e)
  | .ok root =>
    let elements := extract_code_elements root language file_path
    let relationships := extract_relationships root language file_path
    let fa : FileAnalysis :=
      { file_path := file_path
        language := language
        parsing_status := "success"
        error_message := ""
        elements_found := elements.length
        relationships_found := relationships.length
        complexity_score := calculate_complexity_score (some root)
        lines_of_code := splitlines_count source_code }
    .ok file_path language fa elements relationships fa.complexity_score

/-- `_parse_with_fallback` (`main.py:230-264`): always the regex pipeline;
its `except` branch is unreachable (every step is total), so the result is
always a success record with `parsing_status = "success"`. -/
def parseWithFallback (file_path language source_code : String) : ParseResult :=
  let elements := extract_elements_with_regex source_code language file_path
  let relationships := extract_relationships_with_regex source_code language file_path
  let fa : FileAnalysis :=
    { file_path := file_path
      language := language
      parsing_status := "success"
      error_message := ""
      elements_found := elements.length
      relationships_found := relationships.length
      complexity_score := calculate_complexity_with_regex source_code
      lines_of_code := splitlines_count source_code }
  .ok file_path language fa elements relationships fa.complexity_score

/-- `parse_file` (`main.py:167-185`): the structured branch is taken
exactly when tree-sitter is importable and the language has an
initialized parser; otherwise the regex fallback branch.  The file's
content is passed in (the `open(...)` I/O of the source is outside the
embedding). -/
def parse_file (tree_sitter_available : Bool) (language_parsers : List String)
    (file_path language source_code : String) (parsed : Except String TSNode) : ParseResult :=
  if tree_sitter_available ∧ language ∈ language_parsers then
    parseWithTreeSitter file_path language source_code parsed
  else
    parseWithFallback file_path language source_code

/-! Concrete syntax trees used to instantiate the theorems.  Shapes follow
the tree-sitter grammars: `children` includes anonymous keyword tokens,
and plain `import x` statements are `import_statement` nodes while
`from x import y` statements are `import_from_statement` nodes (the
node-type names the source itself dispatches on in its JavaScript and
Python branches respectively). -/

def idNode (nm : String) (r : Nat) : TSNode := .mk "identifier" nm r r [] []

def kwTok (s : String) (r : Nat) : TSNode := .mk s s r r [] []

/-- `def f(): ...` whose body holds exactly one `if` statement whose
condition is one and-expression: the instance named by claim C1. -/
def c1AndExpr : TSNode := .mk "and_expression" "a and b" 1 1 [] [idNode "a" 1, kwTok "and" 1, idNode "b" 1]

def c1IfBody : TSNode := .mk "block" "pass" 2 2 [] [kwTok "pass_statement" 2]

def c1If : TSNode := .mk "if_statement" "if a and b:\n        pass" 1 2 [] [kwTok "if" 1, c1AndExpr, c1IfBody]

def c1Body : TSNode := .mk "block" "if a and b:\n        pass" 1 2 [] [c1If]

def c1Func : TSNode :=
  .mk "function_definition" "def f():\n    if a and b:\n        pass" 0 2
    [("name", 1), ("parameters", 2), ("body", 3)]
    [kwTok "def" 0, idNode "f" 0, .mk "parameters" "()" 0 0 [] [], c1Body]

/-- Tree-sitter parse shape of the two-line source
`import os` / `from sys import path` (claim C2). -/
def dottedName (s : String) (r : Nat) : TSNode := .mk "dotted_name" s r r [] [idNode s r]

def importOsNode : TSNode :=
  .mk "import_statement" "import os" 0 0 [("name", 1)] [kwTok "import" 0, dottedName "os" 0]

def importFromNode : TSNode :=
  .mk "import_from_statement" "from sys import path" 1 1 [("module_name", 1), ("name", 3)]
    [kwTok "from" 1, dottedName "sys" 1, kwTok "import" 1, dottedName "path" 1]

def importTree : TSNode :=
  .mk "module" "import os\nfrom sys import path" 0 1 [] [importOsNode, importFromNode]

/-- `def g(): helper()` — a call that is *not* at module top level
(claim C4). -/
def c4Call : TSNode := .mk "call" "helper()" 1 1 [] [idNode "helper" 1, .mk "argument_list" "()" 1 1 [] []]

def c4Body : TSNode :=
  .mk "block" "helper()" 1 1 [] [.mk "expression_statement" "helper()" 1 1 [] [c4Call]]

def c4Func : TSNode :=
  .mk "function_definition" "def g():\n    helper()" 0 1
    [("name", 1), ("parameters", 2), ("body", 3)]
    [kwTok "def" 0, idNode "g" 0, .mk "parameters" "()" 0 0 [] [], c4Body]

def c4Tree : TSNode := .mk "module" "def g():\n    helper()" 0 1 [] [c4Func]

/-- `function f(x) \x7b if (x) \x7b\x7d \x7d` — a JavaScript file with one
function whose body holds one `if` (claim C6). -/
def jsIfNode : TSNode := .mk "if_statement" "if (x) \x7b\x7d" 0 0 [] []

def jsFuncBody : TSNode := .mk "statement_block" "\x7b if (x) \x7b\x7d \x7d" 0 0 [] [jsIfNode]

def jsFuncNode : TSNode :=
  .mk "function_declaration" "function f(x) \x7b if (x) \x7b\x7d \x7d" 0 0
    [("name", 1), ("parameters", 2), ("body", 3)]
    [kwTok "function" 0, idNode "f" 0, .mk "formal_parameters" "(x)" 0 0 [] [idNode "x" 0], jsFuncBody]

def jsTree : TSNode := .mk "program" "function f(x) \x7b if (x) \x7b\x7d \x7d" 0 0 [] [jsFuncNode]

/-! Helper lemmas. -/

theorem pyWeight_split (ty : String) :
    pyWeight ty = ((if pyCtrl ty then 1 else 0 : Nat) : Rat)
      + (1/2 : Rat) * ((if ty = "elif_clause" then 1 else 0 : Nat) : Rat)
      + ((if ty = "except_clause" then 1 else 0 : Nat) : Rat)
      + ((if pyBoolOp ty then 1 else 0 : Nat) : Rat) := by
  unfold pyWeight
  by_cases h1 : pyCtrl ty
  · have h2 : ¬ ty = "elif_clause" := by rcases h1 with h|h|h|h <;> subst h <;> decide
    have h3 : ¬ ty = "except_clause" := by rcases h1 with h|h|h|h <;> subst h <;> decide
    have h4 : ¬ pyBoolOp ty := by rcases h1 with h|h|h|h <;> subst h <;> decide
    simp [h1, h2, h3, h4]
  · by_cases h2 : ty = "elif_clause"
    · subst h2
      have hA : ¬ pyCtrl "elif_clause" := by decide
      have hB : ¬ ("elif_clause" : String) = "except_clause" := by decide
      have hC : ¬ pyBoolOp "elif_clause" := by decide
      norm_num [hA, hB, hC]
    · by_cases h3 : ty = "except_clause"
      · subst h3
        have hA : ¬ pyCtrl "except_clause" := by decide
        have hB : ¬ ("except_clause" : String) = "elif_clause" := by decide
        have hC : ¬ pyBoolOp "except_clause" := by decide
        norm_num [hA, hB, hC]
      · by_cases h4 : pyBoolOp ty
        · have hA : ¬ pyCtrl ty := h1
          simp [hA, h2, h3, h4]
        · simp [h1, h2, h3, h4]

mutual
theorem count_complexity_eq (n : TSNode) :
    count_complexity_constructs n
      = (countNodes (fun t => decide (pyCtrl t)) n : Rat)
        + (1/2 : Rat) * (countNodes (fun t => decide (t = "elif_clause")) n : Rat)
        + (countNodes (fun t => decide (t = "except_clause")) n : Rat)
        + (countNodes (fun t => decide (pyBoolOp t)) n : Rat) := by
  match n with
  | .mk ty tx sr er fl kids =>
    rw [count_complexity_constructs, countNodes, countNodes, countNodes, countNodes,
      count_complexity_list_eq kids, pyWeight_split ty]
    simp only [decide_eq_true_eq]
    push_cast
    ring

theorem count_complexity_list_eq (l : List TSNode) :
    count_complexity_list l
      = (countNodesList (fun t => decide (pyCtrl t)) l : Rat)
        + (1/2 : Rat) * (countNodesList (fun t => decide (t = "elif_clause")) l : Rat)
        + (countNodesList (fun t => decide (t = "except_clause")) l : Rat)
        + (countNodesList (fun t => decide (pyBoolOp t)) l : Rat) := by
  match l with
  | [] => simp [count_complexity_list, countNodesList]
  | k :: ks =>
    rw [count_complexity_list, countNodesList, countNodesList, countNodesList, countNodesList,
      count_complexity_eq k, count_complexity_list_eq ks]
    push_cast
    ring
end

/-- Claim C1: in structured mode the Python complexity scorer returns 1.0
plus 1.0 per `if`/`for`/`while`/`try` statement, 0.5 per `elif` clause,
1.0 per `except` clause and 1.0 per and/or expression node, counted over
the whole subtree by full recursive descent; in particular a function
whose body holds exactly one if-statement and one and-expression (and no
other counted construct) scores 3.0. -/
theorem C1_complexity_formula :
    (∀ body : TSNode,
      calculate_python_complexity (some body)
        = 1 + (countNodes (fun t => decide (pyCtrl t)) body : Rat)
            + (1/2 : Rat) * (countNodes (fun t => decide (t = "elif_clause")) body : Rat)
            + (countNodes (fun t => decide (t = "except_clause")) body : Rat)
            + (countNodes (fun t => decide (pyBoolOp t)) body : Rat))
    ∧ (extract_python_function c1Func "test.py" 0).complexity = 3 := by
  constructor
  · intro body
    rw [calculate_python_complexity, count_complexity_eq body]
    ring
  · have hb : c1Func.field "body" = some c1Body := rfl
    have h1 : countNodes (fun t => decide (pyCtrl t)) c1Body = 1 := by decide
    have h2 : countNodes (fun t => decide (t = "elif_clause")) c1Body = 0 := by decide
    have h3 : countNodes (fun t => decide (t = "except_clause")) c1Body = 0 := by decide
    have h4 : countNodes (fun t => decide (pyBoolOp t)) c1Body = 1 := by decide
    show calculate_python_complexity (c1Func.field "body") = 3
    rw [hb, calculate_python_complexity, count_complexity_eq, h1, h2, h3, h4]
    norm_num

/-- Claim C2 (amended part): on the two-line source
`import os` / `from sys import path` the regex fallback yields exactly two
`imports` relationships, confidence 0.9, targets `os` and `sys`. -/
theorem C2_regex_two_imports :
    extract_relationships_with_regex "import os\nfrom sys import path" "python" "test.py"
      = [{ ty := "imports", source := some "test.py", target := "os", line := 1,
           context := "import os", confidence := 0.9, is_direct := true },
         { ty := "imports", source := some "test.py", target := "sys", line := 2,
           context := "from sys import path", confidence := 0.9, is_direct := true }] := by
  rfl

/-- Claim C2 (counterexample part): in structured mode the same source
yields no relationship at all.  `importTree` is the tree-sitter parse
shape of that source: the plain import is an `import_statement` node,
which the Python branch of `traverse_for_relationships` never matches
(it only handles `import_from_statement`), and for the
`import_from_statement` node `extract_import_module` reads `child(0)`,
which is the anonymous `from` keyword token, so no relationship is
appended for it either. -/
theorem C2_structured_counterexample :
    extract_relationships importTree "python" "test.py" = []
      ∧ importTree.text = "import os\nfrom sys import path" := by
  constructor
  · rfl
  · rfl

mutual
/-- In every relationship emitted by `traverse_for_relationships`, a
`calls` edge records exactly the `current_element` passed in and an
`imports` edge records the file path: the traversal never rebinds
`current_element` for its recursive calls. -/
theorem tfr_sources (language file_path : String) (cur : Option String) (n : TSNode) :
    ∀ r ∈ traverse_for_relationships language file_path cur n,
      (r.ty = "calls" → r.source = cur) ∧ (r.ty = "imports" → r.source = some file_path) := by
  match n with
  | .mk ty tx sr er fl kids =>
    intro r hr
    rw [traverse_for_relationships] at hr
    simp only [List.mem_append] at hr
    rcases hr with h | h
    · split_ifs at h <;> simp_all
    · exact tfr_sources_list language file_path cur kids r h

theorem tfr_sources_list (language file_path : String) (cur : Option String) (l : List TSNode) :
    ∀ r ∈ traverse_for_relationships_list language file_path cur l,
      (r.ty = "calls" → r.source = cur) ∧ (r.ty = "imports" → r.source = some file_path) := by
  match l with
  | [] => intro r hr; rw [traverse_for_relationships_list] at hr; simp at hr
  | k :: ks =>
    intro r hr
    rw [traverse_for_relationships_list] at hr
    rcases List.mem_append.mp hr with h | h
    · exact tfr_sources language file_path cur k r h
    · exact tfr_sources_list language file_path cur ks r h
end

/-- Claim C4 (amended): in structured mode every `calls` relationship has
`source_element = None` — whether or not the call is inside a function —
because the traversal never updates its `current_element`; every `imports`
relationship has the file path as source. -/
theorem C4_amended (t : TSNode) (language file_path : String) :
    ∀ r ∈ extract_relationships t language file_path,
      (r.ty = "calls" → r.source = none) ∧ (r.ty = "imports" → r.source = some file_path) := by
  intro r hr
  rw [extract_relationships] at hr
  exact tfr_sources language file_path none t r hr

/-- The single relationship extracted from `c4Tree`: the call to `helper`
inside function `g`. -/
theorem c4_extraction :
    extract_relationships c4Tree "python" "test.py"
      = [{ ty := "calls", source := none, target := "helper", line := 2,
           context := "helper()", confidence := 0.8, is_direct := true }] := by
  rfl

/-- Claim C4 (counterexample): in `c4Tree` the only `call` node lies inside
the body of function `g` (which element extraction does report), yet the
extracted `calls` relationship records source `None` — refuting that a
null source occurs only for module-top-level calls. -/
theorem C4_counterexample :
    (extract_relationships c4Tree "python" "test.py").map Relationship.source = [none]
      ∧ (extract_relationships c4Tree "python" "test.py").map Relationship.ty = ["calls"]
      ∧ (extract_code_elements c4Tree "python" "test.py").map Element.name = ["g"]
      ∧ countNodes (fun t => decide (t = "call")) c4Body = 1 := by
  refine ⟨?_, ?_, ?_, ?_⟩ <;> rfl

/-- Claim C4 witness: the amended theorem applied to the `helper` call of
`c4Tree`. -/
theorem C4_witness :
    (({ ty := "calls", source := none, target := "helper", line := 2,
        context := "helper()", confidence := 0.8, is_direct := true } : Relationship).ty = "calls" →
      ({ ty := "calls", source := none, target := "helper", line := 2,
         context := "helper()", confidence := 0.8, is_direct := true } : Relationship).source = none)
    ∧ (({ ty := "calls", source := none, target := "helper", line := 2,
          context := "helper()", confidence := 0.8, is_direct := true } : Relationship).ty = "imports" →
      ({ ty := "calls", source := none, target := "helper", line := 2,
         context := "helper()", confidence := 0.8, is_direct := true } : Relationship).source = some "test.py") :=
  C4_amended c4Tree "python" "test.py" _ (by rw [c4_extraction]; exact List.mem_singleton_self _)

def ParseResult.faStatus (r : ParseResult) : Option String :=
  r.analysisOf.map FileAnalysis.parsing_status

def ParseResult.faElementsFound (r : ParseResult) : Option Nat :=
  r.analysisOf.map FileAnalysis.elements_found

/-- Languages without regex rules get no regex-derived elements. -/
theorem regex_elements_other_languages (src lang fp : String)
    (h1 : lang ≠ "python") (h2 : lang ≠ "javascript") :
    extract_elements_with_regex src lang fp = [] := by
  unfold extract_elements_with_regex
  rw [if_neg h1, if_neg h2]

/-- Claim C3 (amended): when tree-sitter is available and the language has
an initialized parser, a throwing structured parse makes `parse_file`
return the error record directly — the regex fallback is *not* attempted
for that file. -/
theorem C3_amended (language_parsers : List String) (fp lang src e : String)
    (h : lang ∈ language_parsers) :
    parse_file true language_parsers fp lang src (.error e)
      = .err fp ("Tree-sitter parsing failed: " ++ e) := by
  unfold parse_file
  rw [if_pos ⟨rfl, h⟩]
  rfl

/-- Claim C3 (counterexample): a Python file whose structured parse throws
is recorded as an error with no elements, even though the regex fallback
on the very same content would have succeeded and extracted the function
`foo` — the fallback the claim promises is never taken. -/
theorem C3_counterexample :
    (parse_file true ["python"] "a.py" "python" "def foo():\n    pass"
        (.error "boom")).statusOf = "error"
      ∧ (parse_file true ["python"] "a.py" "python" "def foo():\n    pass"
        (.error "boom")).elementsOf = []
      ∧ (parse_file true ["python"] "a.py" "python" "def foo():\n    pass"
        (.error "boom")) = .err "a.py" "Tree-sitter parsing failed: boom"
      ∧ ((parseWithFallback "a.py" "python" "def foo():\n    pass").elementsOf).map Element.name
        = ["foo"] := by
  refine ⟨?_, ?_, ?_, ?_⟩ <;> rfl

/-- Claim C3 witness: the amended theorem at a concrete failing parse. -/
theorem C3_witness :
    parse_file true ["python", "javascript"] "b.py" "python" "x = 1" (.error "bad node")
      = .err "b.py" ("Tree-sitter parsing failed: " ++ "bad node") :=
  C3_amended ["python", "javascript"] "b.py" "python" "x = 1" "bad node" (by decide)

/-- Claim C5 (amended): a file whose language has neither a structured
parser nor regex fallback rules is analyzed by the (total, non-raising)
fallback path and comes back as a success record with `parsing_status =
"success"` — not `"unsupported"` — and zero elements. -/
theorem C5_amended (avail : Bool) (language_parsers : List String)
    (fp lang src : String) (parsed : Except String TSNode)
    (h1 : lang ≠ "python") (h2 : lang ≠ "javascript")
    (h3 : ¬ (avail = true ∧ lang ∈ language_parsers)) :
    (parse_file avail language_parsers fp lang src parsed).statusOf = "success"
      ∧ (parse_file avail language_parsers fp lang src parsed).elementsOf = []
      ∧ (parse_file avail language_parsers fp lang src parsed).faStatus = some "success"
      ∧ (parse_file avail language_parsers fp lang src parsed).faElementsFound = some 0 := by
  have hb : parse_file avail language_parsers fp lang src parsed
      = parseWithFallback fp lang src := by
    unfold parse_file
    rw [if_neg h3]
  have he : extract_elements_with_regex src lang fp = [] :=
    regex_elements_other_languages src lang fp h1 h2
  refine ⟨?_, ?_, ?_, ?_⟩ <;>
    simp [hb, parseWithFallback, he, ParseResult.statusOf, ParseResult.elementsOf,
      ParseResult.faStatus, ParseResult.faElementsFound, ParseResult.analysisOf]

/-- Claim C5 (counterexample): for a `.xyz` file the recorded
`parsing_status` is `"success"`, not the `"unsupported"` the claim
names — no code path of the analyzer ever writes `"unsupported"`. -/
theorem C5_counterexample :
    (parse_file true ["python", "javascript", "typescript", "java", "cpp", "c"]
        "file.xyz" "xyz" "hello world" (.error "unused")).faStatus = some "success"
      ∧ (parse_file true ["python", "javascript", "typescript", "java", "cpp", "c"]
        "file.xyz" "xyz" "hello world" (.error "unused")).faStatus ≠ some "unsupported"
      ∧ (parse_file true ["python", "javascript", "typescript", "java", "cpp", "c"]
        "file.xyz" "xyz" "hello world" (.error "unused")).elementsOf = [] := by
  refine ⟨rfl, ?_, rfl⟩
  intro h
  simp only [parse_file, parseWithFallback, ParseResult.faStatus, ParseResult.analysisOf] at h
  revert h
  decide

/-- Claim C5 witness: the amended theorem at the `.xyz` instance. -/
theorem C5_witness :
    (parse_file true ["python", "javascript", "typescript", "java", "cpp", "c"]
        "file.xyz" "xyz" "hello world" (.error "unused")).statusOf = "success"
      ∧ (parse_file true ["python", "javascript", "typescript", "java", "cpp", "c"]
        "file.xyz" "xyz" "hello world" (.error "unused")).elementsOf = []
      ∧ (parse_file true ["python", "javascript", "typescript", "java", "cpp", "c"]
        "file.xyz" "xyz" "hello world" (.error "unused")).faStatus = some "success"
      ∧ (parse_file true ["python", "javascript", "typescript", "java", "cpp", "c"]
        "file.xyz" "xyz" "hello world" (.error "unused")).faElementsFound = some 0 :=
  C5_amended true ["python", "javascript", "typescript", "java", "cpp", "c"]
    "file.xyz" "xyz" "hello world" (.error "unused")
    (by decide) (by decide) (by decide)

/-- Function/class elements: the ones the file-level mean of the spec
ranges over. -/
def isFuncOrClass (e : Element) : Bool := decide (e.ty = "function" ∨ e.ty = "class")

mutual
/-- The complexities of the function/class elements extracted from a
Python subtree sum to the `total_complexity` that `analyze_node`
accumulates over the same subtree (any start value of the id counter). -/
theorem tt_filter_sum (fp : String) (n : TSNode) : ∀ c : Nat,
    ((((traverse_tree "python" fp n c).1.filter isFuncOrClass).map Element.complexity).sum)
      = (analyze_node n).1 := by
  match n with
  | .mk ty tx sr er fl kids =>
    intro c
    rw [traverse_tree, analyze_node]
    by_cases h1 : ty = "function_definition"
    · subst h1
      simp [List.filter_append, List.map_append, List.sum_append, isFuncOrClass,
        extract_python_function, tt_list_filter_sum fp kids]
    · by_cases h2 : ty = "class_definition"
      · subst h2
        simp [List.filter_append, List.map_append, List.sum_append, isFuncOrClass,
          extract_python_class, tt_list_filter_sum fp kids]
      · by_cases h3 : ty = "assignment"
        · subst h3
          simp [List.filter_append, List.map_append, List.sum_append, isFuncOrClass,
            extract_python_variable, tt_list_filter_sum fp kids]
        · by_cases h4 : ty = "method_definition" <;>
            simp [h1, h2, h3, h4, List.filter_append, List.map_append, List.sum_append,
              tt_list_filter_sum fp kids]

theorem tt_list_filter_sum (fp : String) (l : List TSNode) : ∀ c : Nat,
    ((((traverse_tree_list "python" fp l c).1.filter isFuncOrClass).map Element.complexity).sum)
      = (analyze_node_list l).1 := by
  match l with
  | [] => intro c; rw [traverse_tree_list, analyze_node_list]; simp
  | k :: ks =>
    intro c
    rw [traverse_tree_list, analyze_node_list]
    simp [List.filter_append, List.map_append, List.sum_append,
      tt_filter_sum fp k, tt_list_filter_sum fp ks]
end

mutual
/-- The number of function/class elements extracted from a Python subtree,
plus the number of `method_definition` nodes in it, equals the
`element_count` that `analyze_node` accumulates. -/
theorem tt_filter_len (fp : String) (n : TSNode) : ∀ c : Nat,
    ((traverse_tree "python" fp n c).1.filter isFuncOrClass).length
        + countNodes (fun t => decide (t = "method_definition")) n
      = (analyze_node n).2 := by
  match n with
  | .mk ty tx sr er fl kids =>
    intro c
    rw [traverse_tree, analyze_node, countNodes]
    by_cases h1 : ty = "function_definition"
    · subst h1
      have := tt_list_filter_len fp kids (c + 1)
      simp [List.filter_append, isFuncOrClass, extract_python_function] at this ⊢
      omega
    · by_cases h2 : ty = "class_definition"
      · subst h2
        have := tt_list_filter_len fp kids (c + 1)
        simp [List.filter_append, isFuncOrClass, extract_python_class] at this ⊢
        omega
      · by_cases h3 : ty = "assignment"
        · subst h3
          have := tt_list_filter_len fp kids (c + 1)
          simp [List.filter_append, isFuncOrClass, extract_python_variable] at this ⊢
          omega
        · by_cases h4 : ty = "method_definition"
          · subst h4
            have := tt_list_filter_len fp kids c
            simp [h1, h2, h3, List.filter_append] at this ⊢
            omega
          · have := tt_list_filter_len fp kids c
            simp [h1, h2, h3, h4, List.filter_append] at this ⊢
            omega

theorem tt_list_filter_len (fp : String) (l : List TSNode) : ∀ c : Nat,
    ((traverse_tree_list "python" fp l c).1.filter isFuncOrClass).length
        + countNodesList (fun t => decide (t = "method_definition")) l
      = (analyze_node_list l).2 := by
  match l with
  | [] => intro c; rw [traverse_tree_list, analyze_node_list, countNodesList]; simp
  | k :: ks =>
    intro c
    rw [traverse_tree_list, analyze_node_list, countNodesList]
    have h1 := tt_filter_len fp k c
    have h2 := tt_list_filter_len fp ks (traverse_tree "python" fp k c).2
    simp [List.filter_append] at h1 h2 ⊢
    omega
end

mutual
/-- If `analyze_node` counts no element in a subtree, it also accumulates
no complexity there. -/
theorem analyze_zero (n : TSNode) : (analyze_node n).2 = 0 → (analyze_node n).1 = 0 := by
  match n with
  | .mk ty tx sr er fl kids =>
    rw [analyze_node]
    intro h
    by_cases hc : ty = "function_definition" ∨ ty = "class_definition" ∨ ty = "method_definition"
    · exfalso
      rw [if_pos hc] at h
      split_ifs at h <;> simp at h
    · rw [if_neg hc] at h ⊢
      simp at h ⊢
      exact analyze_zero_list kids h

theorem analyze_zero_list (l : List TSNode) :
    (analyze_node_list l).2 = 0 → (analyze_node_list l).1 = 0 := by
  match l with
  | [] => intro; rw [analyze_node_list]
  | k :: ks =>
    rw [analyze_node_list]
    intro h
    simp at h
    have a1 := analyze_zero k h.1
    have a2 := analyze_zero_list ks h.2
    simp [a1, a2]
end

/-- Claim C6 (amended): for a tree with no `method_definition` node —
every Python parse tree is such — the structured-mode file aggregate is
the arithmetic mean of the complexities of the extracted function and
class elements, and 0.0 when there are none.  (For `method_definition`
nodes, which occur in JavaScript trees, `analyze_node` bumps the
denominator without adding a complexity, so the mean property needs this
hypothesis; the aggregate moreover always uses the Python node names, see
the counterexample.) -/
theorem C6_amended (t : TSNode) (fp : String)
    (hm : countNodes (fun ty => decide (ty = "method_definition")) t = 0) :
    calculate_complexity_score (some t)
      = (if ((extract_code_elements t "python" fp).filter isFuncOrClass) = [] then 0
         else (((extract_code_elements t "python" fp).filter isFuncOrClass).map Element.complexity).sum
              / ((((extract_code_elements t "python" fp).filter isFuncOrClass).length : Nat) : Rat)) := by
  have hsum := tt_filter_sum fp t 0
  have hlen := tt_filter_len fp t 0
  rw [hm] at hlen
  rw [extract_code_elements]
  rw [calculate_complexity_score]
  by_cases hL : (traverse_tree "python" fp t 0).1.filter isFuncOrClass = []
  · rw [if_pos hL]
    rw [hL] at hsum hlen
    simp at hsum hlen
    rw [← hsum, ← hlen]
    try norm_num
  · rw [if_neg hL]
    rw [← hsum, ← hlen]
    have h1 : 0 < ((traverse_tree "python" fp t 0).1.filter isFuncOrClass).length :=
      List.length_pos.mpr hL
    have h2 : max (((traverse_tree "python" fp t 0).1.filter isFuncOrClass).length + 0) 1
        = ((traverse_tree "python" fp t 0).1.filter isFuncOrClass).length := by omega
    rw [h2]
    try norm_num

/-- Claim C6 (counterexample): on a JavaScript file analyzed in structured
mode the aggregate is *not* the mean of the per-element complexities:
`analyze_node` matches only the Python node names, so for `jsTree` — one
`function_declaration` whose extracted element has complexity 2 — the
aggregate is 0, while the mean of the per-element complexities is 2. -/
theorem C6_counterexample :
    calculate_complexity_score (some jsTree) = 0
      ∧ ((extract_code_elements jsTree "javascript" "app.js").map Element.complexity) = [2] := by
  constructor
  · have h2 : (analyze_node jsTree).2 = 0 := by decide
    have h1 : (analyze_node jsTree).1 = 0 := analyze_zero jsTree h2
    rw [calculate_complexity_score, h1, h2]
    norm_num
  · have he : (extract_code_elements jsTree "javascript" "app.js").map Element.complexity
        = [calculate_js_complexity (some jsFuncBody)] := rfl
    have w1 : jsWeight "statement_block" = 0 := by decide
    have w2 : jsWeight "if_statement" = 1 := by decide
    have hc : calculate_js_complexity (some jsFuncBody) = 2 := by
      rw [calculate_js_complexity]
      simp [jsFuncBody, jsIfNode, count_js_complexity, count_js_list, w1, w2]
      norm_num
    rw [he, hc]

/-- Claim C6 witness: the amended theorem at `c4Tree` (one function of
complexity 1). -/
theorem C6_witness :
    countNodes (fun ty => decide (ty = "method_definition")) c4Tree = 0
      ∧ calculate_complexity_score (some c4Tree)
        = (if ((extract_code_elements c4Tree "python" "test.py").filter isFuncOrClass) = [] then 0
           else (((extract_code_elements c4Tree "python" "test.py").filter isFuncOrClass).map Element.complexity).sum
                / ((((extract_code_elements c4Tree "python" "test.py").filter isFuncOrClass).length : Nat) : Rat)) :=
  ⟨by decide, C6_amended c4Tree "test.py" (by decide)⟩

/-- Claim C8: regex fallback on `def foo(a, b):` + indented `pass` yields
exactly one element: a function named `foo`, `start_line` 1 and the
placeholder `end_line` 0. -/
theorem C8_regex_def_foo :
    extract_elements_with_regex "def foo(a, b):\n    pass" "python" "test.py"
      = [{ id := "func_0_test.py", ty := "function", name := "foo", start_line := 1,
           end_line := 0, signature := "def foo(a, b)", documentation := "", complexity := 1,
           dependencies := [], parameters := [], return_type := "Any", decorators := [],
           visibility := "public", is_async := false, is_deprecated := false,
           source_code := "def foo(a, b):" }] := by
  rfl

mutual
/-- For a language that is neither `"python"` nor `"javascript"` the
element traversal emits nothing and leaves the counter unchanged. -/
theorem tt_other (language fp : String) (n : TSNode) :
    ¬ language = "python" → ¬ language = "javascript" →
      ∀ c, traverse_tree language fp n c = ([], c) := by
  match n with
  | .mk ty tx sr er fl kids =>
    intro h1 h2 c
    rw [traverse_tree]
    simp only [h1, h2, if_false]
    rw [tt_list_other language fp kids h1 h2 c]
    simp

theorem tt_list_other (language fp : String) (l : List TSNode) :
    ¬ language = "python" → ¬ language = "javascript" →
      ∀ c, traverse_tree_list language fp l c = ([], c) := by
  match l with
  | [] => intro h1 h2 c; rw [traverse_tree_list]
  | k :: ks =>
    intro h1 h2 c
    rw [traverse_tree_list, tt_other language fp k h1 h2 c, tt_list_other language fp ks h1 h2 c]
    simp
end

mutual
/-- For a language that is neither `"python"` nor `"javascript"` the
relationship traversal emits nothing. -/
theorem tfr_other (language fp : String) (cur : Option String) (n : TSNode) :
    ¬ language = "python" → ¬ language = "javascript" →
      traverse_for_relationships language fp cur n = [] := by
  match n with
  | .mk ty tx sr er fl kids =>
    intro h1 h2
    rw [traverse_for_relationships]
    simp only [h1, h2, if_false]
    rw [tfr_list_other language fp cur kids h1 h2]
    simp

theorem tfr_list_other (language fp : String) (cur : Option String) (l : List TSNode) :
    ¬ language = "python" → ¬ language = "javascript" →
      traverse_for_relationships_list language fp cur l = [] := by
  match l with
  | [] => intro h1 h2; rw [traverse_for_relationships_list]
  | k :: ks =>
    intro h1 h2
    rw [traverse_for_relationships_list, tfr_other language fp cur k h1 h2,
      tfr_list_other language fp cur ks h1 h2]
    simp
end

/-- Claim C10: for any language identifier other than `"python"` and
`"javascript"` — `"typescript"`, `"java"`, `"cpp"`, `"c"` included, even
though parsers are initialized for them — structured-mode element and
relationship extraction both return the empty list. -/
theorem C10_other_languages (t : TSNode) (language fp : String)
    (h1 : language ≠ "python") (h2 : language ≠ "javascript") :
    extract_code_elements t language fp = [] ∧ extract_relationships t language fp = [] := by
  constructor
  · rw [extract_code_elements, tt_other language fp t h1 h2 0]
  · rw [extract_relationships, tfr_other language fp none t h1 h2]

/-- Claim C10 witness: `"typescript"` on a concrete tree. -/
theorem C10_witness :
    extract_code_elements c4Tree "typescript" "test.ts" = []
      ∧ extract_relationships c4Tree "typescript" "test.ts" = [] :=
  C10_other_languages c4Tree "typescript" "test.ts" (by decide) (by decide)

theorem pyWeight_nonneg (ty : String) : 0 ≤ pyWeight ty := by
  unfold pyWeight; split_ifs <;> norm_num

theorem jsWeight_nonneg (ty : String) : 0 ≤ jsWeight ty := by
  unfold jsWeight; split_ifs <;> norm_num

mutual
theorem ccc_nonneg (n : TSNode) : 0 ≤ count_complexity_constructs n := by
  match n with
  | .mk ty tx sr er fl kids =>
    rw [count_complexity_constructs]
    have := pyWeight_nonneg ty
    have := ccl_nonneg kids
    linarith

theorem ccl_nonneg (l : List TSNode) : 0 ≤ count_complexity_list l := by
  match l with
  | [] => rw [count_complexity_list]
  | k :: ks =>
    rw [count_complexity_list]
    have := ccc_nonneg k
    have := ccl_nonneg ks
    linarith
end

mutual
theorem cjs_nonneg (n : TSNode) : 0 ≤ count_js_complexity n := by
  match n with
  | .mk ty tx sr er fl kids =>
    rw [count_js_complexity]
    have := jsWeight_nonneg ty
    have := cjsl_nonneg kids
    linarith

theorem cjsl_nonneg (l : List TSNode) : 0 ≤ count_js_list l := by
  match l with
  | [] => rw [count_js_list]
  | k :: ks =>
    rw [count_js_list]
    have := cjs_nonneg k
    have := cjsl_nonneg ks
    linarith
end

/-- The Python complexity score is at least 1 (exactly 1 for a `None`
body). -/
theorem calc_py_ge (o : Option TSNode) : 1 ≤ calculate_python_complexity o := by
  cases o with
  | none => rw [calculate_python_complexity]
  | some n =>
    rw [calculate_python_complexity]
    have := ccc_nonneg n
    linarith

theorem calc_js_ge (o : Option TSNode) : 1 ≤ calculate_js_complexity o := by
  cases o with
  | none => rw [calculate_js_complexity]
  | some n =>
    rw [calculate_js_complexity]
    have := cjs_nonneg n
    linarith

mutual
/-- Every element emitted by the structured traversal has complexity at
least 1. -/
theorem tt_complexity_ge (language fp : String) (n : TSNode) :
    ∀ c, ∀ e ∈ (traverse_tree language fp n c).1, 1 ≤ e.complexity := by
  match n with
  | .mk ty tx sr er fl kids =>
    intro c e he
    rw [traverse_tree] at he
    simp only [List.mem_append] at he
    rcases he with h | h
    · split_ifs at h <;>
        first
          | exact absurd h (List.not_mem_nil e)
          | (rw [List.mem_singleton] at h; subst h;
             first
               | exact calc_py_ge _
               | exact calc_js_ge _
               | exact le_refl 1)
    · exact tt_list_complexity_ge language fp kids _ e h

theorem tt_list_complexity_ge (language fp : String) (l : List TSNode) :
    ∀ c, ∀ e ∈ (traverse_tree_list language fp l c).1, 1 ≤ e.complexity := by
  match l with
  | [] => intro c e he; rw [traverse_tree_list] at he; simp at he
  | k :: ks =>
    intro c e he
    rw [traverse_tree_list] at he
    simp only [List.mem_append] at he
    rcases he with h | h
    · exact tt_complexity_ge language fp k _ e h
    · exact tt_list_complexity_ge language fp ks _ e h
end

/-- Every regex-derived element has complexity exactly 1. -/
theorem buildElems_complexity (fp a b c : String) (d : Char) (cs : List Char) :
    ∀ (i : Nat) (ms : List (Nat × String × Nat)),
      ∀ e ∈ buildElems (fun i m => regexElem fp i a b c d cs m) i ms, e.complexity = 1 := by
  intro i ms
  induction ms generalizing i with
  | nil => intro e he; rw [buildElems] at he; simp at he
  | cons m ms ih =>
    intro e he
    rw [buildElems] at he
    rcases List.mem_cons.mp he with h | h
    · subst h; rfl
    · exact ih _ e h

theorem regex_elements_complexity (src language fp : String) :
    ∀ e ∈ extract_elements_with_regex src language fp, e.complexity = 1 := by
  intro e he
  rw [extract_elements_with_regex] at he
  split_ifs at he
  · simp only [List.mem_append] at he
    rcases he with h | h <;> exact buildElems_complexity fp _ _ _ _ _ _ _ e h
  · simp only [List.mem_append] at he
    rcases he with h | h <;> exact buildElems_complexity fp _ _ _ _ _ _ _ e h
  · simp at he

/-- Claim C9: every extracted element, in structured and in regex mode,
has `complexity_score ≥ 1.0`, and an element with no body subtree scores
exactly 1.0 (the `None`-body case of both scorers). -/
theorem C9_complexity_lower_bound :
    (∀ (t : TSNode) (language fp : String), ∀ e ∈ extract_code_elements t language fp,
        1 ≤ e.complexity)
    ∧ (∀ (src language fp : String), ∀ e ∈ extract_elements_with_regex src language fp,
        1 ≤ e.complexity)
    ∧ calculate_python_complexity none = 1
    ∧ calculate_js_complexity none = 1 := by
  refine ⟨?_, ?_, rfl, rfl⟩
  · intro t language fp e he
    rw [extract_code_elements] at he
    exact tt_complexity_ge language fp t 0 e he
  · intro src language fp e he
    rw [regex_elements_complexity src language fp e he]

/-- Claim C9 witness: the bound at the function element of `c4Tree` and at
the regex-derived element of `def foo(a, b):`. -/
theorem C9_witness :
    1 ≤ ({ id := "func_0_test.py", ty := "function", name := "foo", start_line := 1,
           end_line := 0, signature := "def foo(a, b)", documentation := "", complexity := 1,
           dependencies := [], parameters := [], return_type := "Any", decorators := [],
           visibility := "public", is_async := false, is_deprecated := false,
           source_code := "def foo(a, b):" } : Element).complexity :=
  C9_complexity_lower_bound.2.1 "def foo(a, b):\n    pass" "python" "test.py" _ (by decide)

/-- A word-boundary match only looks at whether the previous character is
a word character. -/
theorem wholeWordAux_congr (kw : List Char) (p q : Char) (hpq : isWordChar p = isWordChar q) :
    ∀ cs, wholeWordAux kw (some p) cs = wholeWordAux kw (some q) cs := by
  intro cs
  match cs with
  | [] => rfl
  | c :: rest =>
    rw [wholeWordAux, wholeWordAux]
    have : boundMatch kw (some p) (c :: rest) = boundMatch kw (some q) (c :: rest) := by
      rw [boundMatch, boundMatch, hpq]
    rw [this]

/-- No whole-word occurrence can start while the previous character is a
word character, so a run of word characters can be skipped. -/
theorem wholeWordAux_skip (kw : List Char) (p : Char) (hp : isWordChar p = true) :
    ∀ (ws rest : List Char), (∀ c ∈ ws, isWordChar c = true) →
      wholeWordAux kw (some p) (ws ++ rest) = wholeWordAux kw (some p) rest := by
  intro ws
  induction ws with
  | nil => intro rest _; rfl
  | cons w ws ih =>
    intro rest hall
    rw [List.cons_append, wholeWordAux]
    have hb : boundMatch kw (some p) (w :: (ws ++ rest)) = false := by
      simp [boundMatch, hp]
    rw [hb]
    have hw : isWordChar w = true := hall w (List.mem_cons_self w ws)
    rw [wholeWordAux_congr kw w p (by rw [hw, hp])]
    simp only [Bool.false_eq_true, if_false, Nat.zero_add]
    exact ih rest (fun c hc => hall c (List.mem_cons_of_mem w hc))

/-- The non-overlapping `re.findall` scan counts exactly the whole-word
occurrences, for a nonempty keyword made of word characters: matches
cannot overlap, because every character strictly inside or directly after
a match is preceded by a word character. -/
theorem findall_eq_wholeWord (kw : List Char) (hk : kw ≠ [])
    (hw : ∀ c ∈ kw, isWordChar c = true) :
    ∀ (fuel : Nat) (prev : Option Char) (cs : List Char), cs.length ≤ fuel →
      findall_countF kw fuel prev cs = wholeWordAux kw prev cs := by
  intro fuel
  induction fuel with
  | zero =>
    intro prev cs hlen
    have : cs = [] := List.length_eq_zero.mp (Nat.le_zero.mp hlen)
    subst this
    rfl
  | succ fuel ih =>
    intro prev cs hlen
    match cs with
    | [] => rfl
    | c :: rest =>
      rw [findall_countF, wholeWordAux]
      by_cases hb : boundMatch kw prev (c :: rest) = true
      · rw [if_pos hb, if_pos hb]
        have htake : (c :: rest).take kw.length = kw := by
          simp only [boundMatch, Bool.and_eq_true, decide_eq_true_eq] at hb
          exact hb.1.2
        match kw, hk with
        | k :: kt, _ =>
          have hck : c = k ∧ rest.take kt.length = kt := by
            rw [List.length_cons, List.take_succ_cons] at htake
            exact ⟨List.head_eq_of_cons_eq htake, List.tail_eq_of_cons_eq htake⟩
          have hrest : rest = kt ++ rest.drop kt.length := by
            conv_lhs => rw [← List.take_append_drop kt.length rest]
            rw [hck.2]
          have hcw : isWordChar c = true := by
            rw [hck.1]; exact hw k (List.mem_cons_self k kt)
          have hlast : isWordChar (((k :: kt).getLast?).getD c) = true := by
            have : (k :: kt).getLast? = some ((k :: kt).getLast (by simp)) := by
              rw [List.getLast?_eq_getLast]
            rw [this, Option.getD_some]
            exact hw _ (List.getLast_mem _)
          have hdrop : (rest.drop ((k :: kt).length - 1)) = rest.drop kt.length := by
            simp
          rw [hdrop]
          have hlen2 : (rest.drop kt.length).length ≤ fuel := by
            have h1 : rest.length ≤ fuel := by
              rw [List.length_cons] at hlen
              omega
            have h2 : (rest.drop kt.length).length ≤ rest.length := by
              rw [List.length_drop]
              omega
            omega
          rw [ih _ _ hlen2]
          have hA : wholeWordAux (k :: kt) (some c) rest
              = wholeWordAux (k :: kt) (some c) (rest.drop kt.length) := by
            conv_lhs => rw [hrest]
            exact wholeWordAux_skip (k :: kt) c hcw kt (rest.drop kt.length)
              (fun x hx => hw x (List.mem_cons_of_mem k hx))
          rw [hA, wholeWordAux_congr (k :: kt) _ c (by rw [hlast, hcw])]
      · rw [if_neg hb, if_neg hb]
        have hlen2 : rest.length ≤ fuel := by
          rw [List.length_cons] at hlen
          omega
        rw [ih _ _ hlen2]
        simp only [Nat.zero_add]

/-- Claim C7: regex-mode file complexity is exactly 1.0 plus the number of
whole-word occurrences of `if`, `for`, `while`, `try`, `and`, `or`
anywhere in the text; occurrences inside string literals or comments count
like any other (second conjunct: `x = 'if and'` scores 1+1+1 = 3). -/
theorem C7_regex_keyword_complexity :
    (∀ s : String,
      calculate_complexity_with_regex s
        = 1 + ((wholeWordCount "if" s + wholeWordCount "for" s + wholeWordCount "while" s
                + wholeWordCount "try" s + wholeWordCount "and" s + wholeWordCount "or" s : Nat) : Rat))
    ∧ calculate_complexity_with_regex "x = 'if and'" = 3 := by
  constructor
  · intro s
    unfold calculate_complexity_with_regex keywordCount findall_count wholeWordCount
    rw [findall_eq_wholeWord "if".toList (by decide) (by decide) _ none _ le_rfl,
      findall_eq_wholeWord "for".toList (by decide) (by decide) _ none _ le_rfl,
      findall_eq_wholeWord "while".toList (by decide) (by decide) _ none _ le_rfl,
      findall_eq_wholeWord "try".toList (by decide) (by decide) _ none _ le_rfl,
      findall_eq_wholeWord "and".toList (by decide) (by decide) _ none _ le_rfl,
      findall_eq_wholeWord "or".toList (by decide) (by decide) _ none _ le_rfl]
    push_cast
    ring
  · have c1 : keywordCount "if" "x = 'if and'" = 1 := by decide
    have c2 : keywordCount "for" "x = 'if and'" = 0 := by decide
    have c3 : keywordCount "while" "x = 'if and'" = 0 := by decide
    have c4 : keywordCount "try" "x = 'if and'" = 0 := by decide
    have c5 : keywordCount "and" "x = 'if and'" = 1 := by decide
    have c6 : keywordCount "or" "x = 'if and'" = 0 := by decide
    unfold calculate_complexity_with_regex
    rw [c1, c2, c3, c4, c5, c6]
    norm_num
